import Mathlib

/-!
Shallow embedding of the task-and-user management services of
`express-sql-orm-comparison`, covering the role-based task access-control
policy (TaskService of the drizzle, typeorm and objection variants), the
token lifecycle (TokenService, AuthService.refreshToken) and the
authentication middleware, together with theorems settling the
specification claims about them.

Conventions of the embedding:
* Database state is explicit: a `DB` value holds the task and user tables;
  repository calls become pure functions from `DB` to results, mutating
  calls also return the new `DB`.
* JavaScript `Partial<Task>` update payloads become `TaskPatch`: a record
  of `Option` fields, `none` meaning the key is absent/undefined (ORM
  `set`/`patch` skips absent keys).
* Thrown exceptions become `Except AppError` results.
* The external `jsonwebtoken` library (out of scope per the spec) is
  modelled abstractly: a signed token is a transparent record of payload,
  signing secret, issue time and lifetime; verification checks the secret
  and expiry.  Times are natural-number seconds.
-/

namespace OrmComparison

/-- `UserRole` enum from `packages/types` (part_012). -/
inductive UserRole
  | ADMIN
  | MANAGER
  | USER
deriving DecidableEq, Repr

/-- `TaskStatus` enum from `packages/types`. -/
inductive TaskStatus
  | PENDING
  | IN_PROGRESS
  | COMPLETED
  | CANCELLED
deriving DecidableEq, Repr

/-- `TaskPriority` enum from `packages/types`. -/
inductive TaskPriority
  | LOW
  | MEDIUM
  | HIGH
  | URGENT
deriving DecidableEq, Repr

/-- `User` entity (`packages/types`, drizzle `users` schema).
`createdAt`/`updatedAt` bookkeeping timestamps are omitted: no modelled
operation reads them. -/
structure User where
  id : Nat
  email : String
  firstName : String
  lastName : Option String
  password : String
  role : UserRole
  isActive : Bool
deriving DecidableEq, Repr

/-- `Task` entity (`packages/types`, drizzle `tasks` schema).
`createdAt`/`updatedAt` are omitted as for `User`. -/
structure Task where
  id : Nat
  title : String
  description : Option String
  status : TaskStatus
  priority : TaskPriority
  assignedToId : Nat
  createdBy : Nat
  completedAt : Option Nat
  dueDate : Option Nat
deriving DecidableEq, Repr

/-- The exception classes of `packages/common` errors (part_013) that the
modelled services throw, plus the plain `Error` the repositories throw. -/
inductive AppError
  | UnauthorizedException (message : String)
  | NotFoundException (message : String)
  | BadRequestException (message : String)
  | GenericError (message : String)
deriving DecidableEq, Repr

/-- The database state visible to the modelled repositories. -/
structure DB where
  tasks : List Task
  users : List User
  nextTaskId : Nat
deriving DecidableEq, Repr

/-- `TaskRepository.findById`: first task with the given id, or null. -/
def findTaskById (db : DB) (id : Nat) : Option Task :=
  db.tasks.find? (fun t => t.id = id)

/-- `UserRepository.findById` (drizzle variant): first user with the given
id, or null.  Note: no `isActive` filtering. -/
def findUserById (db : DB) (id : Nat) : Option User :=
  db.users.find? (fun u => u.id = id)

/-- A JavaScript `Partial<Task>` update payload: `none` = key absent. -/
structure TaskPatch where
  title : Option String := none
  description : Option String := none
  status : Option TaskStatus := none
  priority : Option TaskPriority := none
  assignedToId : Option Nat := none
  completedAt : Option Nat := none
  dueDate : Option Nat := none
deriving DecidableEq, Repr

/-- A present patch key overwrites a nullable column, an absent one keeps
the stored value. -/
def patchOpt {α : Type} (p : Option α) (old : Option α) : Option α :=
  match p with
  | some v => some v
  | none => old

/-- Apply an update payload to a stored task: present keys overwrite,
absent keys leave the column unchanged (ORM `set`/`update` semantics). -/
def applyPatch (t : Task) (p : TaskPatch) : Task :=
  { t with
    title := p.title.getD t.title
    description := patchOpt p.description t.description
    status := p.status.getD t.status
    priority := p.priority.getD t.priority
    assignedToId := p.assignedToId.getD t.assignedToId
    completedAt := patchOpt p.completedAt t.completedAt
    dueDate := patchOpt p.dueDate t.dueDate }

/-- `TaskRepository.update`: patch the row with the given id and return
the updated row; throws plain `Error("Task not found")` when no row
matches (the services always check existence first). -/
def taskRepositoryUpdate (db : DB) (id : Nat) (p : TaskPatch) :
    Except AppError Task × DB :=
  match findTaskById db id with
  | none => (Except.error (AppError.GenericError "Task not found"), db)
  | some t =>
      let t2 := applyPatch t p
      (Except.ok t2,
       { db with tasks := db.tasks.map (fun u => if u.id = id then t2 else u) })

/-- `TaskRepository.delete`: remove the row with the given id (no error
when absent). -/
def taskRepositoryDelete (db : DB) (id : Nat) : DB :=
  { db with tasks := db.tasks.filter (fun t => !(t.id == id)) }

/-- The column values `TaskRepository.create` inserts (after the service
has spread `createdBy`/`assignedToId` over the client payload). -/
structure NewTaskData where
  title : String
  description : Option String
  status : Option TaskStatus
  priority : Option TaskPriority
  assignedToId : Nat
  createdBy : Nat
  completedAt : Option Nat
deriving DecidableEq, Repr

/-- `TaskRepository.create` (drizzle variant): insert a fresh row.
`description ?? ""`, `status || PENDING`, `priority || MEDIUM` as in the
source (the enum strings are non-empty, so `||` only catches undefined). -/
def taskRepositoryCreate (db : DB) (d : NewTaskData) : Task × DB :=
  let t : Task :=
    { id := db.nextTaskId
      title := d.title
      description := some (d.description.getD "")
      status := d.status.getD TaskStatus.PENDING
      priority := d.priority.getD TaskPriority.MEDIUM
      assignedToId := d.assignedToId
      createdBy := d.createdBy
      completedAt := d.completedAt
      dueDate := none }
  (t, { db with tasks := db.tasks ++ [t], nextTaskId := db.nextTaskId + 1 })

/-- The client payload of `TaskService.createTask` (a `Partial<Task>`). -/
structure TaskPayload where
  title : String := ""
  description : Option String := none
  status : Option TaskStatus := none
  priority : Option TaskPriority := none
  assignedToId : Option Nat := none
  completedAt : Option Nat := none
deriving DecidableEq, Repr

/-- JavaScript `x || d` on a possibly-undefined number: undefined and the
falsy number `0` both fall through to the default. -/
def jsOrNat : Option Nat → Nat → Nat
  | none, d => d
  | some 0, d => d
  | some (n + 1), _ => n + 1

namespace Drizzle

/-- `TaskService.createTask` (`apps/drizzle/src/services/taskService.ts`):
role gate, then insert with `createdBy: userId` and
`assignedToId: taskData.assignedToId || userId`. -/
def createTask (db : DB) (taskData : TaskPayload) (userId : Nat)
    (userRole : UserRole) : Except AppError Task × DB :=
  if userRole ≠ UserRole.ADMIN ∧ userRole ≠ UserRole.MANAGER then
    (Except.error
      (AppError.UnauthorizedException "Only ADMIN and MANAGER can create tasks"),
     db)
  else
    let r := taskRepositoryCreate db
      { title := taskData.title
        description := taskData.description
        status := taskData.status
        priority := taskData.priority
        assignedToId := jsOrNat taskData.assignedToId userId
        createdBy := userId
        completedAt := taskData.completedAt }
    (Except.ok r.1, r.2)

/-- `TaskService.getTaskById` (drizzle): existence check, then the
read-permission ladder. -/
def getTaskById (db : DB) (taskId userId : Nat) (userRole : UserRole) :
    Except AppError Task :=
  match findTaskById db taskId with
  | none =>
      Except.error
        (AppError.NotFoundException
          ("Task with id " ++ toString taskId ++ " not found"))
  | some task =>
      if userRole = UserRole.ADMIN then Except.ok task
      else if userRole = UserRole.MANAGER ∧
          (task.createdBy = userId ∨ task.assignedToId = userId) then
        Except.ok task
      else if userRole = UserRole.USER ∧ task.assignedToId = userId then
        Except.ok task
      else
        Except.error
          (AppError.UnauthorizedException
            "You do not have permission to access this task")

/-- `TaskService.updateTask` (drizzle): existence check; ADMIN patches
anything, MANAGER patches tasks they created, USER gets only the
`status`/`completedAt` keys of the payload applied. -/
def updateTask (db : DB) (taskId : Nat) (taskData : TaskPatch)
    (userId : Nat) (userRole : UserRole) : Except AppError Task × DB :=
  match findTaskById db taskId with
  | none =>
      (Except.error
        (AppError.NotFoundException
          ("Task with id " ++ toString taskId ++ " not found")), db)
  | some task =>
      if userRole = UserRole.ADMIN then
        taskRepositoryUpdate db taskId taskData
      else if userRole = UserRole.MANAGER ∧ task.createdBy = userId then
        taskRepositoryUpdate db taskId taskData
      else if userRole = UserRole.USER ∧ task.assignedToId = userId then
        taskRepositoryUpdate db taskId
          { status := taskData.status, completedAt := taskData.completedAt }
      else
        (Except.error
          (AppError.UnauthorizedException
            "You do not have permission to update this task"), db)

/-- `TaskService.deleteTask` (drizzle): existence check, then ADMIN-only
gate, then hard delete. -/
def deleteTask (db : DB) (taskId userId : Nat) (userRole : UserRole) :
    Except AppError Bool × DB :=
  match findTaskById db taskId with
  | none =>
      (Except.error
        (AppError.NotFoundException
          ("Task with id " ++ toString taskId ++ " not found")), db)
  | some _ =>
      if userRole ≠ UserRole.ADMIN then
        (Except.error
          (AppError.UnauthorizedException "Only ADMIN can delete tasks"), db)
      else
        (Except.ok true, taskRepositoryDelete db taskId)

/-- `TaskService.assignTask` (drizzle): existence check, role gate,
assignee-existence check, then the assignment write. -/
def assignTask (db : DB) (taskId assigneeId userId : Nat)
    (userRole : UserRole) : Except AppError Task × DB :=
  match findTaskById db taskId with
  | none =>
      (Except.error
        (AppError.NotFoundException
          ("Task with id " ++ toString taskId ++ " not found")), db)
  | some _ =>
      if userRole ≠ UserRole.ADMIN ∧ userRole ≠ UserRole.MANAGER then
        (Except.error
          (AppError.UnauthorizedException
            "Only ADMIN and MANAGER can assign tasks"), db)
      else
        match findUserById db assigneeId with
        | none =>
            (Except.error
              (AppError.NotFoundException
                ("User with id " ++ toString assigneeId ++ " not found")), db)
        | some _ =>
            taskRepositoryUpdate db taskId { assignedToId := some assigneeId }

/-- `TaskService.updateTaskStatus` (drizzle): existence check; USER must
be the assignee, MANAGER must be creator or assignee, ADMIN passes. -/
def updateTaskStatus (db : DB) (taskId : Nat) (status : TaskStatus)
    (userId : Nat) (userRole : UserRole) : Except AppError Task × DB :=
  match findTaskById db taskId with
  | none =>
      (Except.error
        (AppError.NotFoundException
          ("Task with id " ++ toString taskId ++ " not found")), db)
  | some task =>
      if userRole = UserRole.USER ∧ task.assignedToId ≠ userId then
        (Except.error
          (AppError.UnauthorizedException
            "You can only update status of your own tasks"), db)
      else if userRole = UserRole.MANAGER ∧ task.createdBy ≠ userId ∧
          task.assignedToId ≠ userId then
        (Except.error
          (AppError.UnauthorizedException
            "You do not have permission to update this task"), db)
      else
        taskRepositoryUpdate db taskId { status := some status }

/-- `TaskService.updateTaskDueDate` (drizzle): the ADMIN/MANAGER role gate
runs BEFORE the task-existence check. -/
def updateTaskDueDate (db : DB) (taskId dueDate userId : Nat)
    (userRole : UserRole) : Except AppError Task × DB :=
  if userRole ≠ UserRole.ADMIN ∧ userRole ≠ UserRole.MANAGER then
    (Except.error
      (AppError.UnauthorizedException
        "Only ADMIN and MANAGER can update task due date"), db)
  else
    match findTaskById db taskId with
    | none =>
        (Except.error
          (AppError.NotFoundException
            ("Task with id " ++ toString taskId ++ " not found")), db)
    | some _ =>
        taskRepositoryUpdate db taskId { dueDate := some dueDate }

/-- `TaskService.updateTaskPriority` (drizzle): the ADMIN/MANAGER role
gate runs BEFORE the task-existence check. -/
def updateTaskPriority (db : DB) (taskId : Nat) (priority : TaskPriority)
    (userId : Nat) (userRole : UserRole) : Except AppError Task × DB :=
  if userRole ≠ UserRole.ADMIN ∧ userRole ≠ UserRole.MANAGER then
    (Except.error
      (AppError.UnauthorizedException
        "Only ADMIN and MANAGER can update task priority"), db)
  else
    match findTaskById db taskId with
    | none =>
        (Except.error
          (AppError.NotFoundException
            ("Task with id " ++ toString taskId ++ " not found")), db)
    | some _ =>
        taskRepositoryUpdate db taskId { priority := some priority }

end Drizzle

namespace Typeorm

/-- `TaskService.updateTask` (`apps/typeorm/src/services/authService.ts`,
second file segment): same ladder as drizzle, USER gets only
`status`/`completedAt` applied. -/
def updateTask (db : DB) (taskId : Nat) (taskData : TaskPatch)
    (userId : Nat) (userRole : UserRole) : Except AppError Task × DB :=
  match findTaskById db taskId with
  | none =>
      (Except.error
        (AppError.NotFoundException
          ("Task with id " ++ toString taskId ++ " not found")), db)
  | some task =>
      if userRole = UserRole.ADMIN then
        taskRepositoryUpdate db taskId taskData
      else if userRole = UserRole.MANAGER ∧ task.createdBy = userId then
        taskRepositoryUpdate db taskId taskData
      else if userRole = UserRole.USER ∧ task.assignedToId = userId then
        taskRepositoryUpdate db taskId
          { status := taskData.status, completedAt := taskData.completedAt }
      else
        (Except.error
          (AppError.UnauthorizedException
            "You do not have permission to update this task"), db)

/-- `TaskService.assignTask` (typeorm): existence check, role gate,
assignee-existence check, then the assignment write. -/
def assignTask (db : DB) (taskId assigneeId userId : Nat)
    (userRole : UserRole) : Except AppError Task × DB :=
  match findTaskById db taskId with
  | none =>
      (Except.error
        (AppError.NotFoundException
          ("Task with id " ++ toString taskId ++ " not found")), db)
  | some _ =>
      if userRole ≠ UserRole.ADMIN ∧ userRole ≠ UserRole.MANAGER then
        (Except.error
          (AppError.UnauthorizedException
            "Only ADMIN and MANAGER can assign tasks"), db)
      else
        match findUserById db assigneeId with
        | none =>
            (Except.error
              (AppError.NotFoundException
                ("User with id " ++ toString assigneeId ++ " not found")), db)
        | some _ =>
            taskRepositoryUpdate db taskId { assignedToId := some assigneeId }

/-- `TaskService.updateTaskStatus` (typeorm): `canUpdate` is
`ADMIN || MANAGER || (USER && assignedToId === userId)` — a MANAGER needs
NO ownership here, unlike the drizzle and objection variants. -/
def updateTaskStatus (db : DB) (taskId : Nat) (status : TaskStatus)
    (userId : Nat) (userRole : UserRole) : Except AppError Task × DB :=
  match findTaskById db taskId with
  | none =>
      (Except.error
        (AppError.NotFoundException
          ("Task with id " ++ toString taskId ++ " not found")), db)
  | some task =>
      if userRole = UserRole.ADMIN ∨ userRole = UserRole.MANAGER ∨
          (userRole = UserRole.USER ∧ task.assignedToId = userId) then
        taskRepositoryUpdate db taskId { status := some status }
      else
        (Except.error
          (AppError.UnauthorizedException
            "You do not have permission to update this task status"), db)

/-- `TaskService.updateTaskDueDate` (typeorm): here the existence check
runs BEFORE the role gate. -/
def updateTaskDueDate (db : DB) (taskId dueDate userId : Nat)
    (userRole : UserRole) : Except AppError Task × DB :=
  match findTaskById db taskId with
  | none =>
      (Except.error
        (AppError.NotFoundException
          ("Task with id " ++ toString taskId ++ " not found")), db)
  | some _ =>
      if userRole ≠ UserRole.ADMIN ∧ userRole ≠ UserRole.MANAGER then
        (Except.error
          (AppError.UnauthorizedException
            "Only ADMIN and MANAGER can update due date"), db)
      else
        taskRepositoryUpdate db taskId { dueDate := some dueDate }

/-- `TaskService.updateTaskPriority` (typeorm): existence check before
the role gate. -/
def updateTaskPriority (db : DB) (taskId : Nat) (priority : TaskPriority)
    (userId : Nat) (userRole : UserRole) : Except AppError Task × DB :=
  match findTaskById db taskId with
  | none =>
      (Except.error
        (AppError.NotFoundException
          ("Task with id " ++ toString taskId ++ " not found")), db)
  | some _ =>
      if userRole ≠ UserRole.ADMIN ∧ userRole ≠ UserRole.MANAGER then
        (Except.error
          (AppError.UnauthorizedException
            "Only ADMIN and MANAGER can update task priority"), db)
      else
        taskRepositoryUpdate db taskId { priority := some priority }

end Typeorm

namespace Objection

/-- `TaskService.updateTaskStatus` (objection variant, third segment of
`apps/objection/src/repositories/userRepository.ts`): same ownership
ladder as drizzle. -/
def updateTaskStatus (db : DB) (taskId : Nat) (status : TaskStatus)
    (userId : Nat) (userRole : UserRole) : Except AppError Task × DB :=
  match findTaskById db taskId with
  | none =>
      (Except.error
        (AppError.NotFoundException
          ("Task with id " ++ toString taskId ++ " not found")), db)
  | some task =>
      if userRole = UserRole.USER ∧ task.assignedToId ≠ userId then
        (Except.error
          (AppError.UnauthorizedException
            "You can only update status of your own tasks"), db)
      else if userRole = UserRole.MANAGER ∧ task.createdBy ≠ userId ∧
          task.assignedToId ≠ userId then
        (Except.error
          (AppError.UnauthorizedException
            "You do not have permission to update this task"), db)
      else
        taskRepositoryUpdate db taskId { status := some status }

/-- `TaskService.updateTaskDueDate` (objection): role gate BEFORE the
existence check, as in drizzle. -/
def updateTaskDueDate (db : DB) (taskId dueDate userId : Nat)
    (userRole : UserRole) : Except AppError Task × DB :=
  if userRole ≠ UserRole.ADMIN ∧ userRole ≠ UserRole.MANAGER then
    (Except.error
      (AppError.UnauthorizedException
        "Only ADMIN and MANAGER can update task due date"), db)
  else
    match findTaskById db taskId with
    | none =>
        (Except.error
          (AppError.NotFoundException
            ("Task with id " ++ toString taskId ++ " not found")), db)
    | some _ =>
        taskRepositoryUpdate db taskId { dueDate := some dueDate }

/-- `TaskService.updateTaskPriority` (objection): role gate BEFORE the
existence check, as in drizzle. -/
def updateTaskPriority (db : DB) (taskId : Nat) (priority : TaskPriority)
    (userId : Nat) (userRole : UserRole) : Except AppError Task × DB :=
  if userRole ≠ UserRole.ADMIN ∧ userRole ≠ UserRole.MANAGER then
    (Except.error
      (AppError.UnauthorizedException
        "Only ADMIN and MANAGER can update task priority"), db)
  else
    match findTaskById db taskId with
    | none =>
        (Except.error
          (AppError.NotFoundException
            ("Task with id " ++ toString taskId ++ " not found")), db)
    | some _ =>
        taskRepositoryUpdate db taskId { priority := some priority }

/-- `TaskService.deleteTask` (objection): existence check, ADMIN-only
gate, hard delete. -/
def deleteTask (db : DB) (taskId userId : Nat) (userRole : UserRole) :
    Except AppError Bool × DB :=
  match findTaskById db taskId with
  | none =>
      (Except.error
        (AppError.NotFoundException
          ("Task with id " ++ toString taskId ++ " not found")), db)
  | some _ =>
      if userRole ≠ UserRole.ADMIN then
        (Except.error
          (AppError.UnauthorizedException "Only ADMIN can delete tasks"), db)
      else
        (Except.ok true, taskRepositoryDelete db taskId)

end Objection

/-- Token claims (`TokenPayload` in `packages/common/token`, part_014). -/
structure TokenPayload where
  userId : Nat
  email : String
  role : UserRole
deriving DecidableEq, Repr

/-- Abstract model of a signed JWT produced by the external
`jsonwebtoken` collaborator: the payload together with the signing
secret, issue time and lifetime in seconds.  A token deserialises
successfully exactly when verified with the secret it was signed with and
before expiry. -/
structure Jwt where
  payload : TokenPayload
  secret : String
  issuedAt : Nat
  expiresInSeconds : Nat
deriving DecidableEq, Repr

/-- `jwt.sign(payload, secret, {expiresIn})` at time `now`. -/
def jwtSign (p : TokenPayload) (secret : String) (expiresInSeconds now : Nat) :
    Jwt :=
  { payload := p, secret := secret, issuedAt := now
    expiresInSeconds := expiresInSeconds }

/-- `jwt.verify(token, secret)` at time `now`: payload when the secret
matches and the token has not expired, otherwise a thrown error
(`none`). -/
def jwtVerify (t : Jwt) (secret : String) (now : Nat) : Option TokenPayload :=
  if t.secret = secret ∧ now < t.issuedAt + t.expiresInSeconds then
    some t.payload
  else none

/-- `config.jwt.secret`: the fixed signing secret supplied through the
environment (`JWT_SECRET`); both signing and verification use this one
value. -/
def jwtSecret : String := "JWT_SECRET"

namespace TokenService

/-- `TokenService.generateToken`: sign `{userId, email, role}` with the
shared secret, 24h expiry. -/
def generateToken (user : User) (now : Nat) : Jwt :=
  jwtSign { userId := user.id, email := user.email, role := user.role }
    jwtSecret (24 * 3600) now

/-- `TokenService.generateRefreshToken`: same claims, 7-day expiry. -/
def generateRefreshToken (user : User) (now : Nat) : Jwt :=
  jwtSign { userId := user.id, email := user.email, role := user.role }
    jwtSecret (7 * 24 * 3600) now

/-- `TokenService.verifyToken`: any `jwt.verify` failure collapses to one
`UnauthorizedException`. -/
def verifyToken (token : Jwt) (now : Nat) : Except AppError TokenPayload :=
  match jwtVerify token jwtSecret now with
  | some decoded => Except.ok decoded
  | none => Except.error (AppError.UnauthorizedException "Invalid or expired token")

end TokenService

namespace AuthService

/-- `AuthService.refreshToken` (drizzle variant, part_009; the typeorm
and prisma variants are textually identical): verify the refresh token,
re-load the user by the embedded id, fail when the user no longer exists,
and reissue both tokens from the freshly loaded record.  The surrounding
try/catch rethrows every failure as
`UnauthorizedException("Invalid refresh token")`. -/
def refreshToken (db : DB) (token : Jwt) (now : Nat) :
    Except AppError (Jwt × Jwt) :=
  match TokenService.verifyToken token now with
  | Except.error _ =>
      Except.error (AppError.UnauthorizedException "Invalid refresh token")
  | Except.ok payload =>
      match findUserById db payload.userId with
      | none =>
          Except.error (AppError.UnauthorizedException "Invalid refresh token")
      | some user =>
          Except.ok
            (TokenService.generateToken user now,
             TokenService.generateRefreshToken user now)

end AuthService

/-- `createAuthMiddleware` (`packages/common/src/middlewares/authMiddleware.ts`)
instantiated with the drizzle user finder (`apps/drizzle/src/middleware/auth.ts`):
require a bearer token, verify it, then check that the subject still
exists and is active. -/
def authenticate (db : DB) (token : Option Jwt) (now : Nat) :
    Except AppError TokenPayload :=
  match token with
  | none => Except.error (AppError.UnauthorizedException "Access token is required")
  | some t =>
      match TokenService.verifyToken t now with
      | Except.error _ =>
          Except.error (AppError.UnauthorizedException "Invalid or expired token")
      | Except.ok decoded =>
          match findUserById db decoded.userId with
          | none =>
              Except.error (AppError.UnauthorizedException "User no longer exists")
          | some user =>
              if user.isActive then Except.ok decoded
              else
                Except.error
                  (AppError.UnauthorizedException "User account is inactive")

/-- An operation result that did not throw. -/
def succeeds {α : Type} (e : Except AppError α) : Prop :=
  ∃ a, e = Except.ok a

/-- The `NotFoundException` every task operation throws for a missing
task id. -/
def taskNotFound {α : Type} (taskId : Nat) : Except AppError α :=
  Except.error
    (AppError.NotFoundException
      ("Task with id " ++ toString taskId ++ " not found"))

/-- Concrete fixture task: created by user 2, assigned to user 3. -/
def exTask : Task :=
  { id := 10, title := "t", description := none
    status := TaskStatus.PENDING, priority := TaskPriority.LOW
    assignedToId := 3, createdBy := 2, completedAt := none, dueDate := none }

/-- Concrete fixture database holding only `exTask`. -/
def exDB : DB := { tasks := [exTask], users := [], nextTaskId := 11 }

/-- Concrete empty database. -/
def emptyDB : DB := { tasks := [], users := [], nextTaskId := 1 }

/-- Concrete deactivated user. -/
def exInactiveUser : User :=
  { id := 7, email := "u@example.com", firstName := "U", lastName := none
    password := "p", role := UserRole.USER, isActive := false }

/-- Concrete database whose only user is deactivated. -/
def dbInactive : DB := { tasks := [], users := [exInactiveUser], nextTaskId := 1 }

/-- Concrete fixture task for the USER-update scenario: assigned to
user 3, created by user 2. -/
def wTask : Task :=
  { id := 20, title := "old", description := none
    status := TaskStatus.PENDING, priority := TaskPriority.MEDIUM
    assignedToId := 3, createdBy := 2, completedAt := none, dueDate := none }

/-- Concrete fixture database holding only `wTask`. -/
def wDB : DB := { tasks := [wTask], users := [], nextTaskId := 21 }

/-- The spec's USER update payload
`{status: COMPLETED, title: "new title", priority: URGENT}`. -/
def wPatch : TaskPatch :=
  { title := some "new title", status := some TaskStatus.COMPLETED
    priority := some TaskPriority.URGENT }

/-- Updating one row leaves it findable as the patched row: if the lookup
by id succeeded before the rewrite and the new row keeps the id, the
lookup after the rewrite returns the new row. -/
theorem find?_map_if {l : List Task} {id : Nat} {t t2 : Task}
    (h : l.find? (fun u => u.id = id) = some t) (h2 : t2.id = id) :
    (l.map (fun u => if u.id = id then t2 else u)).find?
      (fun u => u.id = id) = some t2 := by
  induction l with
  | nil => simp at h
  | cons a l ih =>
      by_cases ha : a.id = id
      · simp [List.find?, ha, h2]
      · rw [List.find?_cons_of_neg _ (by simp [ha])] at h
        simp only [List.map_cons, if_neg ha]
        rw [List.find?_cons_of_neg _ (by simp [ha])]
        exact ih h

/-- Claim C7 (confirmed): verifying a token produced by
`TokenService.generateToken(u)` with the same signing secret and before
its 24h expiry returns the claims `{userId: u.id, email: u.email,
role: u.role}`. -/
theorem C7_token_roundtrip (u : User) (issuedAt now : Nat)
    (hexp : now < issuedAt + 24 * 3600) :
    TokenService.verifyToken (TokenService.generateToken u issuedAt) now =
      Except.ok { userId := u.id, email := u.email, role := u.role } := by
  simp [TokenService.verifyToken, TokenService.generateToken, jwtVerify,
    jwtSign, hexp]

/-- Witness for C7 at a concrete user and times. -/
theorem C7_token_roundtrip_witness :
    TokenService.verifyToken
        (TokenService.generateToken exInactiveUser 5) 100 =
      Except.ok
        { userId := exInactiveUser.id, email := exInactiveUser.email
          role := exInactiveUser.role } :=
  C7_token_roundtrip exInactiveUser 5 100 (by decide)

/-- Claim C6 (confirmed): when refresh-token verification succeeds,
`AuthService.refreshToken` fails with the invalid-token error exactly
when the user lookup returns null, and otherwise reissues both tokens
computed from the freshly loaded user record. -/
theorem C6_refresh_lookup (db : DB) (token : Jwt) (now : Nat)
    (payload : TokenPayload)
    (hv : TokenService.verifyToken token now = Except.ok payload) :
    (findUserById db payload.userId = none →
      AuthService.refreshToken db token now =
        Except.error (AppError.UnauthorizedException "Invalid refresh token")) ∧
    (∀ user, findUserById db payload.userId = some user →
      AuthService.refreshToken db token now =
        Except.ok
          (TokenService.generateToken user now,
           TokenService.generateRefreshToken user now)) := by
  constructor
  · intro hu
    simp [AuthService.refreshToken, hv, hu]
  · intro user hu
    simp [AuthService.refreshToken, hv, hu]

/-- Witness for C6: a verified token whose subject is missing from the
empty database is refused. -/
theorem C6_refresh_lookup_witness :
    AuthService.refreshToken emptyDB
        (TokenService.generateRefreshToken exInactiveUser 0) 10 =
      Except.error (AppError.UnauthorizedException "Invalid refresh token") :=
  (C6_refresh_lookup emptyDB
      (TokenService.generateRefreshToken exInactiveUser 0) 10
      { userId := exInactiveUser.id, email := exInactiveUser.email
        role := exInactiveUser.role }
      rfl).1 rfl

/-- Claim C5 counterexample: refreshing a valid refresh token whose
subject exists but is deactivated SUCCEEDS (the claim says it must fail
with the invalid-token error). -/
theorem C5_counterexample :
    exInactiveUser.isActive = false ∧
    AuthService.refreshToken dbInactive
        (TokenService.generateRefreshToken exInactiveUser 0) 10 =
      Except.ok
        (TokenService.generateToken exInactiveUser 10,
         TokenService.generateRefreshToken exInactiveUser 10) :=
  ⟨rfl, rfl⟩

/-- Claim C5 (corrected): refresh does not consult `isActive` — for any
existing subject, active or not, refresh reissues both tokens; the
inactive-subject rejection lives in the authentication middleware, which
refuses an inactive user with its dedicated message. -/
theorem C5_refresh_ignores_inactive (db : DB) (token : Jwt) (now : Nat)
    (payload : TokenPayload) (user : User)
    (hv : TokenService.verifyToken token now = Except.ok payload)
    (hu : findUserById db payload.userId = some user)
    (hi : user.isActive = false) :
    AuthService.refreshToken db token now =
      Except.ok
        (TokenService.generateToken user now,
         TokenService.generateRefreshToken user now) ∧
    authenticate db (some token) now =
      Except.error (AppError.UnauthorizedException "User account is inactive") := by
  constructor
  · simp [AuthService.refreshToken, hv, hu]
  · simp [authenticate, hv, hu, hi]

/-- Witness for the corrected C5 at the concrete inactive user. -/
theorem C5_refresh_ignores_inactive_witness :
    AuthService.refreshToken dbInactive
        (TokenService.generateRefreshToken exInactiveUser 0) 10 =
      Except.ok
        (TokenService.generateToken exInactiveUser 10,
         TokenService.generateRefreshToken exInactiveUser 10) ∧
    authenticate dbInactive
        (some (TokenService.generateRefreshToken exInactiveUser 0)) 10 =
      Except.error (AppError.UnauthorizedException "User account is inactive") :=
  C5_refresh_ignores_inactive dbInactive
    (TokenService.generateRefreshToken exInactiveUser 0) 10
    { userId := exInactiveUser.id, email := exInactiveUser.email
      role := exInactiveUser.role }
    exInactiveUser rfl rfl rfl

/-- Claim C1 counterexample: in the typeorm variant, a MANAGER who
neither created nor is assigned the task still updates its status
successfully, where the claim demands an authorization failure. -/
theorem C1_counterexample :
    exTask.createdBy ≠ 1 ∧ exTask.assignedToId ≠ 1 ∧
    (Typeorm.updateTaskStatus exDB 10 TaskStatus.COMPLETED 1
        UserRole.MANAGER).1 =
      Except.ok { exTask with status := TaskStatus.COMPLETED } :=
  ⟨by decide, by decide, rfl⟩

/-- Claim C1 (corrected): for a MANAGER and an existing task, the
update-status operation in the drizzle and objection variants succeeds
iff the task's `createdBy` or `assignedToId` equals the actor's id, but
in the typeorm variant it succeeds unconditionally. -/
theorem C1_manager_status_ownership (db : DB) (taskId : Nat)
    (status : TaskStatus) (userId : Nat) (task : Task)
    (h : findTaskById db taskId = some task) :
    (succeeds (Drizzle.updateTaskStatus db taskId status userId
        UserRole.MANAGER).1 ↔
      (task.createdBy = userId ∨ task.assignedToId = userId)) ∧
    (succeeds (Objection.updateTaskStatus db taskId status userId
        UserRole.MANAGER).1 ↔
      (task.createdBy = userId ∨ task.assignedToId = userId)) ∧
    succeeds (Typeorm.updateTaskStatus db taskId status userId
        UserRole.MANAGER).1 := by
  by_cases h1 : task.createdBy = userId <;>
    by_cases h2 : task.assignedToId = userId <;>
      simp [Drizzle.updateTaskStatus, Objection.updateTaskStatus,
        Typeorm.updateTaskStatus, h, taskRepositoryUpdate, succeeds, h1, h2]

/-- Witness for the corrected C1 at the fixture task and its creator. -/
theorem C1_manager_status_ownership_witness :
    (succeeds (Drizzle.updateTaskStatus exDB 10 TaskStatus.COMPLETED 2
        UserRole.MANAGER).1 ↔
      (exTask.createdBy = 2 ∨ exTask.assignedToId = 2)) ∧
    (succeeds (Objection.updateTaskStatus exDB 10 TaskStatus.COMPLETED 2
        UserRole.MANAGER).1 ↔
      (exTask.createdBy = 2 ∨ exTask.assignedToId = 2)) ∧
    succeeds (Typeorm.updateTaskStatus exDB 10 TaskStatus.COMPLETED 2
        UserRole.MANAGER).1 :=
  C1_manager_status_ownership exDB 10 TaskStatus.COMPLETED 2 exTask rfl

/-- Claim C2 counterexample: in the drizzle variant, a USER updating the
due date of a NONEXISTENT task gets the authorization error, not the
not-found error — the role gate runs before the existence check. -/
theorem C2_counterexample :
    findTaskById emptyDB 99 = none ∧
    (Drizzle.updateTaskDueDate emptyDB 99 0 7 UserRole.USER).1 =
      Except.error
        (AppError.UnauthorizedException
          "Only ADMIN and MANAGER can update task due date") :=
  ⟨rfl, rfl⟩

/-- Claim C2 (corrected): with a nonexistent task id, read, general
update, delete, assign and status-change fail with the not-found error
for every role, as do the typeorm due-date and priority updates; but the
drizzle and objection due-date and priority updates check the
ADMIN/MANAGER role gate first, so a USER actor gets the authorization
error instead of the not-found error. -/
theorem C2_missing_task (db : DB) (taskId userId assigneeId dueDate : Nat)
    (patch : TaskPatch) (status : TaskStatus) (priority : TaskPriority)
    (role : UserRole) (h : findTaskById db taskId = none) :
    Drizzle.getTaskById db taskId userId role = taskNotFound taskId ∧
    (Drizzle.updateTask db taskId patch userId role).1 = taskNotFound taskId ∧
    (Drizzle.deleteTask db taskId userId role).1 = taskNotFound taskId ∧
    (Drizzle.assignTask db taskId assigneeId userId role).1 =
      taskNotFound taskId ∧
    (Drizzle.updateTaskStatus db taskId status userId role).1 =
      taskNotFound taskId ∧
    (Objection.updateTaskStatus db taskId status userId role).1 =
      taskNotFound taskId ∧
    (Objection.deleteTask db taskId userId role).1 = taskNotFound taskId ∧
    (Typeorm.updateTaskDueDate db taskId dueDate userId role).1 =
      taskNotFound taskId ∧
    (Typeorm.updateTaskPriority db taskId priority userId role).1 =
      taskNotFound taskId ∧
    ((role = UserRole.ADMIN ∨ role = UserRole.MANAGER) →
      (Drizzle.updateTaskDueDate db taskId dueDate userId role).1 =
        taskNotFound taskId ∧
      (Drizzle.updateTaskPriority db taskId priority userId role).1 =
        taskNotFound taskId ∧
      (Objection.updateTaskDueDate db taskId dueDate userId role).1 =
        taskNotFound taskId ∧
      (Objection.updateTaskPriority db taskId priority userId role).1 =
        taskNotFound taskId) ∧
    (role = UserRole.USER →
      (Drizzle.updateTaskDueDate db taskId dueDate userId role).1 =
        Except.error
          (AppError.UnauthorizedException
            "Only ADMIN and MANAGER can update task due date") ∧
      (Drizzle.updateTaskPriority db taskId priority userId role).1 =
        Except.error
          (AppError.UnauthorizedException
            "Only ADMIN and MANAGER can update task priority") ∧
      (Objection.updateTaskDueDate db taskId dueDate userId role).1 =
        Except.error
          (AppError.UnauthorizedException
            "Only ADMIN and MANAGER can update task due date") ∧
      (Objection.updateTaskPriority db taskId priority userId role).1 =
        Except.error
          (AppError.UnauthorizedException
            "Only ADMIN and MANAGER can update task priority")) := by
  cases role <;>
    simp [Drizzle.getTaskById, Drizzle.updateTask, Drizzle.deleteTask,
      Drizzle.assignTask, Drizzle.updateTaskStatus,
      Drizzle.updateTaskDueDate, Drizzle.updateTaskPriority,
      Objection.updateTaskStatus, Objection.deleteTask,
      Objection.updateTaskDueDate, Objection.updateTaskPriority,
      Typeorm.updateTaskDueDate, Typeorm.updateTaskPriority,
      taskNotFound, h]

/-- Witness for the corrected C2: USER due-date update on a missing task
is refused by the role gate. -/
theorem C2_missing_task_witness :
    (Drizzle.updateTaskDueDate emptyDB 99 0 7 UserRole.USER).1 =
      Except.error
        (AppError.UnauthorizedException
          "Only ADMIN and MANAGER can update task due date") :=
  ((C2_missing_task emptyDB 99 7 5 0 {} TaskStatus.COMPLETED
      TaskPriority.LOW UserRole.USER rfl).2.2.2.2.2.2.2.2.2.2 rfl).1

/-- Claim C3 (confirmed): a USER running a general update on a task
assigned to them succeeds, and only the `status` and `completedAt` keys
of the payload are applied — `title`, `priority` and every other field of
the stored task stay unchanged, in both the drizzle and typeorm task
services. -/
theorem C3_user_update_allowlist (db : DB) (taskId : Nat)
    (patch : TaskPatch) (userId : Nat) (task : Task)
    (h : findTaskById db taskId = some task)
    (ha : task.assignedToId = userId) :
    ∃ t2,
      (Drizzle.updateTask db taskId patch userId UserRole.USER).1 =
        Except.ok t2 ∧
      (Typeorm.updateTask db taskId patch userId UserRole.USER).1 =
        Except.ok t2 ∧
      findTaskById
        (Drizzle.updateTask db taskId patch userId UserRole.USER).2 taskId =
        some t2 ∧
      t2.status = patch.status.getD task.status ∧
      t2.completedAt = patchOpt patch.completedAt task.completedAt ∧
      t2.title = task.title ∧
      t2.priority = task.priority ∧
      t2.description = task.description ∧
      t2.dueDate = task.dueDate ∧
      t2.assignedToId = task.assignedToId ∧
      t2.createdBy = task.createdBy := by
  have hfind : db.tasks.find? (fun u => u.id = taskId) = some task := h
  have hid : task.id = taskId := by
    have hp := List.find?_some hfind
    exact of_decide_eq_true hp
  refine ⟨applyPatch task
    { status := patch.status, completedAt := patch.completedAt }, ?_, ?_, ?_,
    rfl, rfl, rfl, rfl, rfl, rfl, rfl, rfl⟩
  · simp [Drizzle.updateTask, h, ha, taskRepositoryUpdate]
  · simp [Typeorm.updateTask, h, ha, taskRepositoryUpdate]
  · have hres :
        (Drizzle.updateTask db taskId patch userId UserRole.USER).2 =
          { db with tasks := db.tasks.map (fun u =>
              if u.id = taskId then
                applyPatch task
                  { status := patch.status
                    completedAt := patch.completedAt }
              else u) } := by
      simp [Drizzle.updateTask, h, ha, taskRepositoryUpdate]
    rw [hres]
    exact find?_map_if hfind hid

/-- Witness for C3: the spec's scenario payload
`{status: COMPLETED, title: "new title", priority: URGENT}` applied by
assignee 3 to the fixture task. -/
theorem C3_user_update_allowlist_witness :
    ∃ t2,
      (Drizzle.updateTask wDB 20 wPatch 3 UserRole.USER).1 = Except.ok t2 ∧
      (Typeorm.updateTask wDB 20 wPatch 3 UserRole.USER).1 = Except.ok t2 ∧
      findTaskById (Drizzle.updateTask wDB 20 wPatch 3 UserRole.USER).2 20 =
        some t2 ∧
      t2.status = wPatch.status.getD wTask.status ∧
      t2.completedAt = patchOpt wPatch.completedAt wTask.completedAt ∧
      t2.title = wTask.title ∧
      t2.priority = wTask.priority ∧
      t2.description = wTask.description ∧
      t2.dueDate = wTask.dueDate ∧
      t2.assignedToId = wTask.assignedToId ∧
      t2.createdBy = wTask.createdBy :=
  C3_user_update_allowlist wDB 20 wPatch 3 wTask rfl rfl

/-- Claim C4 (confirmed): an ADMIN or MANAGER assigning an existing task
to an assignee id whose user lookup returns null gets the not-found error
naming that id, and the database — hence the task — is left unchanged, in
both the drizzle and typeorm task services. -/
theorem C4_assign_missing_assignee (db : DB)
    (taskId assigneeId userId : Nat) (role : UserRole) (task : Task)
    (hrole : role = UserRole.ADMIN ∨ role = UserRole.MANAGER)
    (h : findTaskById db taskId = some task)
    (hu : findUserById db assigneeId = none) :
    Drizzle.assignTask db taskId assigneeId userId role =
      (Except.error
        (AppError.NotFoundException
          ("User with id " ++ toString assigneeId ++ " not found")), db) ∧
    Typeorm.assignTask db taskId assigneeId userId role =
      (Except.error
        (AppError.NotFoundException
          ("User with id " ++ toString assigneeId ++ " not found")), db) := by
  rcases hrole with hr | hr <;> subst hr <;>
    simp [Drizzle.assignTask, Typeorm.assignTask, h, hu]

/-- Witness for C4: assigning the fixture task to the nonexistent user
999. -/
theorem C4_assign_missing_assignee_witness :
    Drizzle.assignTask exDB 10 999 1 UserRole.ADMIN =
      (Except.error
        (AppError.NotFoundException
          ("User with id " ++ toString 999 ++ " not found")), exDB) ∧
    Typeorm.assignTask exDB 10 999 1 UserRole.ADMIN =
      (Except.error
        (AppError.NotFoundException
          ("User with id " ++ toString 999 ++ " not found")), exDB) :=
  C4_assign_missing_assignee exDB 10 999 1 UserRole.ADMIN exTask
    (Or.inl rfl) rfl rfl

/-- Claim C8 (confirmed): task creation succeeds exactly for ADMIN and
MANAGER actors — a USER is refused before any write — and every created
task records the actor as `createdBy`, with `assignedToId` defaulting to
the actor when the payload has none. -/
theorem C8_create_task (db : DB) (payload : TaskPayload) (userId : Nat)
    (role : UserRole) :
    ((∃ t db2, Drizzle.createTask db payload userId role =
        (Except.ok t, db2)) ↔
      (role = UserRole.ADMIN ∨ role = UserRole.MANAGER)) ∧
    (role = UserRole.USER →
      Drizzle.createTask db payload userId role =
        (Except.error
          (AppError.UnauthorizedException
            "Only ADMIN and MANAGER can create tasks"), db)) ∧
    (∀ t db2, Drizzle.createTask db payload userId role =
        (Except.ok t, db2) →
      t.createdBy = userId ∧
      (payload.assignedToId = none → t.assignedToId = userId)) := by
  refine ⟨?_, ?_, ?_⟩
  · cases role <;> simp [Drizzle.createTask, taskRepositoryCreate]
  · intro hr
    subst hr
    simp [Drizzle.createTask]
  · intro t db2 heq
    cases role <;>
      simp [Drizzle.createTask, taskRepositoryCreate] at heq
    case ADMIN =>
      obtain ⟨ht, _⟩ := heq
      subst ht
      exact ⟨rfl, fun hnone => by simp [hnone, jsOrNat]⟩
    case MANAGER =>
      obtain ⟨ht, _⟩ := heq
      subst ht
      exact ⟨rfl, fun hnone => by simp [hnone, jsOrNat]⟩

/-- Witness for C8: a USER may not create a task. -/
theorem C8_create_task_witness :
    Drizzle.createTask emptyDB {} 7 UserRole.USER =
      (Except.error
        (AppError.UnauthorizedException
          "Only ADMIN and MANAGER can create tasks"), emptyDB) :=
  (C8_create_task emptyDB {} 7 UserRole.USER).2.1 rfl

/-- Claim C9 (confirmed): deleting an existing task succeeds exactly for
ADMIN; a MANAGER or USER actor — owner or not — gets the authorization
error and the database is unchanged, in both the drizzle and objection
task services. -/
theorem C9_delete_admin_only (db : DB) (taskId userId : Nat)
    (role : UserRole) (task : Task)
    (h : findTaskById db taskId = some task) :
    ((∃ r, (Drizzle.deleteTask db taskId userId role).1 = Except.ok r) ↔
      role = UserRole.ADMIN) ∧
    ((∃ r, (Objection.deleteTask db taskId userId role).1 = Except.ok r) ↔
      role = UserRole.ADMIN) ∧
    (role ≠ UserRole.ADMIN →
      Drizzle.deleteTask db taskId userId role =
        (Except.error
          (AppError.UnauthorizedException "Only ADMIN can delete tasks"),
         db) ∧
      Objection.deleteTask db taskId userId role =
        (Except.error
          (AppError.UnauthorizedException "Only ADMIN can delete tasks"),
         db)) := by
  cases role <;>
    simp [Drizzle.deleteTask, Objection.deleteTask, h]

/-- Witness for C9: MANAGER user 2 — the fixture task's creator — may not
delete it. -/
theorem C9_delete_admin_only_witness :
    ((∃ r, (Drizzle.deleteTask exDB 10 2 UserRole.MANAGER).1 =
        Except.ok r) ↔ UserRole.MANAGER = UserRole.ADMIN) ∧
    ((∃ r, (Objection.deleteTask exDB 10 2 UserRole.MANAGER).1 =
        Except.ok r) ↔ UserRole.MANAGER = UserRole.ADMIN) ∧
    (UserRole.MANAGER ≠ UserRole.ADMIN →
      Drizzle.deleteTask exDB 10 2 UserRole.MANAGER =
        (Except.error
          (AppError.UnauthorizedException "Only ADMIN can delete tasks"),
         exDB) ∧
      Objection.deleteTask exDB 10 2 UserRole.MANAGER =
        (Except.error
          (AppError.UnauthorizedException "Only ADMIN can delete tasks"),
         exDB)) :=
  C9_delete_admin_only exDB 10 2 UserRole.MANAGER exTask rfl

/-- Claim C10 (confirmed): a payload whose `assignedToId` is the falsy
value 0 — not merely absent — still yields a task assigned to the
creating actor, because the default is taken by JavaScript `||`
falsiness. -/
theorem C10_create_assigned_zero (db : DB) (payload : TaskPayload)
    (userId : Nat) (role : UserRole)
    (hrole : role = UserRole.ADMIN ∨ role = UserRole.MANAGER)
    (hz : payload.assignedToId = some 0) :
    ∃ t db2,
      Drizzle.createTask db payload userId role = (Except.ok t, db2) ∧
      t.assignedToId = userId ∧ t.createdBy = userId := by
  rcases hrole with hr | hr <;> subst hr <;>
    simp [Drizzle.createTask, taskRepositoryCreate, hz, jsOrNat]

/-- Witness for C10 with an explicit zero assignee in the payload. -/
theorem C10_create_assigned_zero_witness :
    ∃ t db2,
      Drizzle.createTask emptyDB { assignedToId := some 0 } 4
          UserRole.MANAGER = (Except.ok t, db2) ∧
      t.assignedToId = 4 ∧ t.createdBy = 4 :=
  C10_create_assigned_zero emptyDB { assignedToId := some 0 } 4
    UserRole.MANAGER (Or.inr rfl) rfl

end OrmComparison
